import Mathlib

/-!
Verification of the SysPulse audit engine and telemetry layer.

This file shallowly embeds the Python sources (`app/aws_audit.py`,
`app/app.py`, `app/monitor.py`) in Lean:

* money amounts (`estimated_savings`, prices, costs) are modelled as `ℚ`;
* UTC instants are modelled as epoch seconds (`ℤ`); `datetime.now(utc)`
  read during a single run is modelled by one instant `now` threaded
  through (time does not advance inside a pure run);
* the AWS client is an in-memory fake (`CloudEnv`) offering the data each
  `describe`/`list` call returns; the fake is total, so the generic
  `except`-branches of the audit methods are reachable only where the
  Python code itself can raise independently of the client (the
  `launch_time` local in `audit_ec2_resources`), and those paths are
  modelled explicitly;
* the mutable `self.findings` list is threaded in state-passing style:
  each audit method returns the block of findings it appends, and callers
  concatenate the blocks in program order;
* wall-clock metadata that no computation reads back (`timestamp` fields
  on findings, ISO strings in report metadata) is omitted from the records.
-/

namespace SysPulse

/-- `Severity` enum of `aws_audit.py`. -/
inductive Severity
  | CRITICAL
  | HIGH
  | MEDIUM
  | LOW
  | INFO
deriving DecidableEq

/-- `ResourceType` enum of `aws_audit.py` (member names; `CLOUDWATCH` is
declared with the value string "CLOUDFORMATION", making the later
`CLOUDFORMATION` member a Python alias of it). -/
inductive ResourceType
  | EC2
  | S3
  | RDS
  | LAMBDA
  | IAM
  | VPC
  | CLOUDFRONT
  | DYNAMODB
  | ECS
  | SNS
  | SQS
  | ELASTICACHE
  | API_GATEWAY
  | CLOUDWATCH
  | ROUTE53
  | EFS
  | EBS
  | SECURITY_GROUP
deriving DecidableEq

/-- The `.value` string of a `ResourceType` member. -/
def ResourceType.value : ResourceType → String
  | .EC2 => "EC2"
  | .S3 => "S3"
  | .RDS => "RDS"
  | .LAMBDA => "LAMBDA"
  | .IAM => "IAM"
  | .VPC => "VPC"
  | .CLOUDFRONT => "CLOUDFRONT"
  | .DYNAMODB => "DYNAMODB"
  | .ECS => "ECS"
  | .SNS => "SNS"
  | .SQS => "SQS"
  | .ELASTICACHE => "ELASTICACHE"
  | .API_GATEWAY => "API_GATEWAY"
  | .CLOUDWATCH => "CLOUDFORMATION"
  | .ROUTE53 => "ROUTE53"
  | .EFS => "EFS"
  | .EBS => "EBS"
  | .SECURITY_GROUP => "SECURITY_GROUP"

/-- The member name as printed by `str(member)` after stripping the
`ResourceType.` prefix (used by `get_structured_audit`). -/
def ResourceType.memberName : ResourceType → String
  | .EC2 => "EC2"
  | .S3 => "S3"
  | .RDS => "RDS"
  | .LAMBDA => "LAMBDA"
  | .IAM => "IAM"
  | .VPC => "VPC"
  | .CLOUDFRONT => "CLOUDFRONT"
  | .DYNAMODB => "DYNAMODB"
  | .ECS => "ECS"
  | .SNS => "SNS"
  | .SQS => "SQS"
  | .ELASTICACHE => "ELASTICACHE"
  | .API_GATEWAY => "API_GATEWAY"
  | .CLOUDWATCH => "CLOUDWATCH"
  | .ROUTE53 => "ROUTE53"
  | .EFS => "EFS"
  | .EBS => "EBS"
  | .SECURITY_GROUP => "SECURITY_GROUP"

/-- `Severity.name` as printed by `str(member)` after stripping
`Severity.`. -/
def Severity.memberName : Severity → String
  | .CRITICAL => "CRITICAL"
  | .HIGH => "HIGH"
  | .MEDIUM => "MEDIUM"
  | .LOW => "LOW"
  | .INFO => "INFO"

/-- `AuditFinding` dataclass (the `timestamp` field, set to the wall-clock
instant on construction and read by nothing, is omitted). -/
structure AuditFinding where
  resource_type : ResourceType
  resource_id : String
  finding : String
  severity : Severity
  description : String
  recommendation : String
  estimated_savings : ℚ := 0
  region : String := "ap-south-1"
deriving DecidableEq

/-! ## The in-memory cloud client (fake `CloudClient`) -/

/-- One EC2 instance as returned by `describe_instances` (reservations
flattened). `LaunchTime` is always present in the API response. -/
structure Ec2Instance where
  instanceId : String
  instanceType : String
  state : String
  launchTime : ℤ
  /-- `instance.get('StateReason', {}).get('Code')`, `""` when absent. -/
  stateReasonCode : String := ""
deriving DecidableEq

/-- One EBS volume of `describe_volumes`. -/
structure Volume where
  volumeId : String
  size : ℕ
  state : String
  volumeType : String := "gp2"
deriving DecidableEq

/-- One snapshot of `describe_snapshots(OwnerIds=['self'])`. -/
structure Snapshot where
  snapshotId : String
  startTime : ℤ
deriving DecidableEq

/-- One address of `describe_addresses`. -/
structure Address where
  publicIp : String
  allocationId : Option String := none
  instanceId : Option String := none
  networkInterfaceId : Option String := none
deriving DecidableEq

/-- One entry of a permission's `IpRanges`. -/
structure IpRange where
  cidrIp : Option String
deriving DecidableEq

/-- One entry of a security group's `IpPermissions`. -/
structure IpPermission where
  fromPort : Option ℤ := none
  toPort : Option ℤ := none
  ipRanges : List IpRange := []
deriving DecidableEq

/-- One security group of `describe_security_groups`. -/
structure SecurityGroup where
  groupId : String
  groupName : String
  ipPermissions : List IpPermission := []
deriving DecidableEq

/-- One bucket of `list_buckets` together with the per-bucket call
results the S3 audit makes:
`hasContents` — `list_objects_v2(MaxKeys=1)` returns a `Contents` key;
`policyStatus` — `some isPublic` when `get_bucket_policy_status`
succeeds, `none` when it raises (no policy);
`encrypted` — whether `get_bucket_encryption` succeeds;
`versioningStatus` — `get_bucket_versioning().get('Status')`. -/
structure Bucket where
  name : String
  creationDate : ℤ
  hasContents : Bool
  policyStatus : Option Bool
  encrypted : Bool
  versioningStatus : Option String
deriving DecidableEq

/-- One Lambda function of `list_functions`. -/
structure LambdaFunction where
  functionName : String
  runtime : String
  codeSize : ℕ
  lastModified : ℤ
deriving DecidableEq

/-- One access key of `list_access_keys`. -/
structure AccessKey where
  accessKeyId : String
  createDate : ℤ
deriving DecidableEq

/-- One IAM user of `list_users`, with the per-user call results. -/
structure IamUser where
  userName : String
  /-- `len(list_mfa_devices(...)['MFADevices'])`. -/
  mfaDevices : ℕ
  accessKeys : List AccessKey
deriving DecidableEq

/-- One RDS instance of `describe_db_instances`. -/
structure RdsInstance where
  dbInstanceIdentifier : String
  engine : String
  dbInstanceClass : String
  multiAZ : Bool := false
  publiclyAccessible : Bool := false
  dbInstanceStatus : String
  allocatedStorage : ℕ := 0
  endpointAddress : Option String := none
deriving DecidableEq

/-- One DynamoDB table (`list_tables` name plus its `describe_table`). -/
structure DynamoTable where
  name : String
  status : String
  items : ℕ := 0
  sizeBytes : ℕ := 0
  billingMode : Option String := none
  sseEnabled : Bool := false
deriving DecidableEq

/-- One ECS cluster of `describe_clusters`. -/
structure EcsCluster where
  clusterName : String
  status : String
  runningTasks : ℕ := 0
  pendingTasks : ℕ := 0
  activeServices : ℕ := 0
deriving DecidableEq

/-- One Batch job queue of `describe_job_queues`. -/
structure BatchQueue where
  jobQueueName : String
  state : String
  status : String
  priority : ℕ := 0
deriving DecidableEq

/-- One EFS filesystem of `describe_file_systems`. -/
structure EfsFileSystem where
  fileSystemId : String
  sizeValue : ℕ := 0
  encrypted : Bool := false
  throughputMode : String := "bursting"
deriving DecidableEq

/-- One ElastiCache cluster of `describe_cache_clusters`. -/
structure CacheCluster where
  cacheClusterId : String
  engine : String := "redis"
  status : String
  nodeType : String
  numNodes : ℕ := 0
deriving DecidableEq

/-- One VPC of `describe_vpcs`. -/
structure Vpc where
  vpcId : String
  isDefault : Bool := false
deriving DecidableEq

/-- One network interface of `describe_network_interfaces` (only the
group ids are read). -/
structure NetworkInterface where
  groups : List String
deriving DecidableEq

/-- One CloudFront distribution item. -/
structure CfDistribution where
  distId : String
  domainName : String
  status : String
  enabled : Bool
  priceClass : String := "All"
deriving DecidableEq

/-- `list_distributions()['DistributionList']`: the `Items` key is absent
when there are no distributions. -/
structure DistributionList where
  quantity : ℕ
  items : Option (List CfDistribution) := none
deriving DecidableEq

/-- One hosted zone of `list_hosted_zones`. -/
structure HostedZone where
  zoneId : String
  name : String
  privateZone : Bool := false
  recordSetCount : ℕ := 0
deriving DecidableEq

/-- One REST API of `get_rest_apis`. -/
structure RestApi where
  apiId : String
  name : String
  endpointType : String := "EDGE"
deriving DecidableEq

/-- One KMS key of `list_keys`. -/
structure KmsKey where
  keyId : String
  keyArn : String
deriving DecidableEq

/-- One CloudFormation stack summary of `list_stacks`. -/
structure StackSummary where
  stackName : String
  stackStatus : String
deriving DecidableEq

/-- One EventBridge rule of `list_rules`. -/
structure EventRule where
  name : String
  state : String := "ENABLED"
deriving DecidableEq

/-- The in-memory fake of the cloud account the auditor enumerates. -/
structure CloudEnv where
  instances : List Ec2Instance := []
  volumes : List Volume := []
  snapshots : List Snapshot := []
  addresses : List Address := []
  securityGroups : List SecurityGroup := []
  /-- `len(describe_images(Owners=['self'])['Images'])`. -/
  images : ℕ := 0
  buckets : List Bucket := []
  lambdaFunctions : List LambdaFunction := []
  users : List IamUser := []
  /-- `len(list_roles()['Roles'])`. -/
  roles : ℕ := 0
  /-- `len(list_policies(Scope='Local')['Policies'])`. -/
  policies : ℕ := 0
  rdsInstances : List RdsInstance := []
  dynamoTables : List DynamoTable := []
  ecsClusters : List EcsCluster := []
  batchQueues : List BatchQueue := []
  efsFileSystems : List EfsFileSystem := []
  cacheClusters : List CacheCluster := []
  vpcs : List Vpc := []
  subnets : ℕ := 0
  routeTables : ℕ := 0
  networkInterfaces : List NetworkInterface := []
  distributionList : DistributionList := { quantity := 0 }
  hostedZones : List HostedZone := []
  restApis : List RestApi := []
  kmsKeys : List KmsKey := []
  /-- `StateValue` of each metric alarm of `describe_alarms`. -/
  alarmStates : List String := []
  stackSummaries : List StackSummary := []
  /-- Topic ARNs of `list_topics`. -/
  snsTopicArns : List String := []
  /-- Queue URLs of `list_queues`. -/
  sqsQueueUrls : List String := []
  eventRules : List EventRule := []
  codebuildProjects : ℕ := 0
  codepipelinePipelines : ℕ := 0
  codedeployApplications : ℕ := 0
deriving DecidableEq

/-! ## Shared helpers -/

/-- `timedelta.days` of `a - b` for instants in epoch seconds
(`timedelta` normalises toward minus infinity, i.e. floor division). -/
def tdDays (a b : ℤ) : ℤ := (a - b).fdiv 86400

/-- Ordered-dict counter bump: `d[k] = d.get(k, 0) + 1` (a new key is
appended in insertion order, an existing key is bumped in place). -/
def bumpAssoc (m : List (String × ℕ)) (k : String) : List (String × ℕ) :=
  if m.any (fun e => e.1 = k) then m.map (fun e => if e.1 = k then (e.1, e.2 + 1) else e)
  else m ++ [(k, 1)]

/-- `sum` of `estimated_savings` by a running accumulation (the
`total_savings`/`estimated_savings` loops of the source). -/
def totalSavings (fs : List AuditFinding) : ℚ :=
  fs.foldl (fun a f => a + f.estimated_savings) 0

/-! ## `audit_ec2_resources` -/

/-- One entry of `result['instances']['list']`; `launch_time` is the
value of the Python local `launch_time` at list-building time (the
`isoformat` branch, since `LaunchTime` is always present). -/
structure InstanceEntry where
  id : String
  type : String
  state : String
  launch_time : ℤ
deriving DecidableEq

/-- `result['instances']` of the EC2 audit. -/
structure InstanceCounts where
  running : ℕ := 0
  stopped : ℕ := 0
  total : ℕ := 0
  list : List InstanceEntry := []
deriving DecidableEq

/-- `result['volumes']` of the EC2 audit. -/
structure VolumeCounts where
  attached : ℕ := 0
  unattached : ℕ := 0
  total : ℕ := 0
deriving DecidableEq

/-- `result['snapshots']` of the EC2 audit. -/
structure SnapshotCounts where
  total : ℕ := 0
  old : ℕ := 0
deriving DecidableEq

/-- `result['amis']` of the EC2 audit (nothing ever bumps `unused`). -/
structure AmiCounts where
  total : ℕ := 0
  unused : ℕ := 0
deriving DecidableEq

/-- `result['elastic_ips']` of the EC2 audit. -/
structure EipCounts where
  attached : ℕ := 0
  unattached : ℕ := 0
  total : ℕ := 0
deriving DecidableEq

/-- One entry of an `overly_permissive` list. -/
structure PermissiveEntry where
  sg_id : String
  sg_name : String
  port : Option ℤ
  cidr : String
deriving DecidableEq

/-- `result['security_groups']` of the EC2 audit. -/
structure SgCounts where
  total : ℕ := 0
  overly_permissive : List PermissiveEntry := []
deriving DecidableEq

/-- The success result of `audit_ec2_resources` (its `findings` key is
initialised to `[]` and never written). -/
structure Ec2Summary where
  instances : InstanceCounts
  volumes : VolumeCounts
  snapshots : SnapshotCounts
  amis : AmiCounts
  elastic_ips : EipCounts
  security_groups : SgCounts
  findings : List AuditFinding := []
deriving DecidableEq

/-- The idle-instance finding (`estimated_savings=5.0 * 30`). -/
def idleInstanceFinding (region : String) (i : Ec2Instance) (days : ℤ) : AuditFinding :=
  { resource_type := .EC2
    resource_id := i.instanceId
    finding := "Potentially idle EC2 instance"
    severity := .MEDIUM
    description := "Instance " ++ i.instanceId ++ " has been running for " ++ toString days ++ " days"
    recommendation := "Consider stopping or terminating if not needed"
    estimated_savings := 5 * 30
    region := region }

/-- The stopped-instance finding (`estimated_savings=2.0 * 30`). -/
def stoppedInstanceFinding (region : String) (i : Ec2Instance) : AuditFinding :=
  { resource_type := .EC2
    resource_id := i.instanceId
    finding := "Stopped EC2 instance"
    severity := .LOW
    description := "Instance " ++ i.instanceId ++ " is stopped but still incurs EBS costs"
    recommendation := "Terminate if not needed"
    estimated_savings := 2 * 30
    region := region }

/-- The findings one instance contributes inside the instance loop. -/
def instanceFindings (region : String) (now : ℤ) (i : Ec2Instance) : List AuditFinding :=
  if i.state = "running" then
    let days := tdDays now i.launchTime
    if days > 7 ∧ i.stateReasonCode ≠ "Client.UserInitiatedShutdown" then
      [idleInstanceFinding region i days]
    else []
  else if i.state = "stopped" then [stoppedInstanceFinding region i]
  else []

/-- Loop state of the instance loop; `lastLaunch` is the Python local
`launch_time` (`none` while unbound: it is only assigned in the
`running` branch, yet read when building every list entry). -/
structure InstLoopState where
  counts : InstanceCounts := {}
  lastLaunch : Option ℤ := none
deriving DecidableEq

/-- The instance loop of `audit_ec2_resources`: returns the findings it
appended and either the final counters or the `NameError` raised when a
list entry reads `launch_time` before any running instance bound it. -/
def instLoop (region : String) (now : ℤ) :
    List Ec2Instance → InstLoopState → List AuditFinding × Except String InstLoopState
  | [], s => ([], .ok s)
  | i :: rest, s =>
    let c := s.counts
    let c := { c with total := c.total + 1 }
    let c :=
      if i.state = "running" then { c with running := c.running + 1 }
      else if i.state = "stopped" then { c with stopped := c.stopped + 1 }
      else c
    let lastLaunch := if i.state = "running" then some i.launchTime else s.lastLaunch
    let fs := instanceFindings region now i
    match lastLaunch with
    | none => (fs, .error "NameError: launch_time referenced before assignment")
    | some lt =>
      let entry : InstanceEntry :=
        { id := i.instanceId, type := i.instanceType, state := i.state, launch_time := lt }
      let next :=
        instLoop region now rest
          { counts := { c with list := c.list ++ [entry] }, lastLaunch := lastLaunch }
      (fs ++ next.1, next.2)

/-- The unattached-volume finding (`size * 0.10 * 30`). -/
def unattachedVolumeFinding (region : String) (v : Volume) : AuditFinding :=
  { resource_type := .EBS
    resource_id := v.volumeId
    finding := "Unattached EBS volume"
    severity := .HIGH
    description := "Volume " ++ v.volumeId ++ " (" ++ toString v.size ++
      "GB) is not attached to any instance"
    recommendation := "Delete if not needed"
    estimated_savings := (v.size : ℚ) * (1/10) * 30
    region := region }

/-- Findings of the volume loop. -/
def volumeFindings (region : String) (vols : List Volume) : List AuditFinding :=
  vols.flatMap fun v => if v.state = "available" then [unattachedVolumeFinding region v] else []

/-- `'InstanceId' not in address and 'NetworkInterfaceId' not in address`. -/
def eipUnattached (a : Address) : Bool :=
  a.instanceId = none ∧ a.networkInterfaceId = none

/-- The unattached-Elastic-IP finding (`estimated_savings=3.6`). -/
def eipFinding (region : String) (a : Address) : AuditFinding :=
  { resource_type := .EC2
    resource_id := a.allocationId.getD a.publicIp
    finding := "Unattached Elastic IP"
    severity := .HIGH
    description := "Elastic IP " ++ a.publicIp ++ " is not associated"
    recommendation := "Release to avoid charges"
    estimated_savings := 18/5
    region := region }

/-- Findings of the address loop. -/
def eipFindings (region : String) (addrs : List Address) : List AuditFinding :=
  addrs.flatMap fun a => if eipUnattached a then [eipFinding region a] else []

/-- `risky_ports`. -/
def riskyPorts : List ℤ := [22, 3389, 1433, 3306, 5432, 1521]

/-- `port in risky_ports` with Python `None in [...] == False`. -/
def portRisky : Option ℤ → Bool
  | some p => p ∈ riskyPorts
  | none => false

/-- The guard of the overly-permissive scan: CIDR is `0.0.0.0/0` and
`from_port` or `to_port` is risky. -/
def permissiveHit (p : IpPermission) (r : IpRange) : Bool :=
  r.cidrIp = some "0.0.0.0/0" ∧ (portRisky p.fromPort ∨ portRisky p.toPort)

/-- Python `f"{from_port}"` for an optional port. -/
def optPortStr : Option ℤ → String
  | some p => toString p
  | none => "None"

/-- The overly-permissive security-group finding (savings default 0). -/
def permissiveFinding (region : String) (sg : SecurityGroup) (p : IpPermission) : AuditFinding :=
  { resource_type := .SECURITY_GROUP
    resource_id := sg.groupId
    finding := "Overly permissive security group"
    severity := .HIGH
    description := "Security group " ++ sg.groupName ++ " allows " ++
      optPortStr p.fromPort ++ " from 0.0.0.0/0"
    recommendation := "Restrict to specific IP ranges"
    region := region }

/-- The `overly_permissive` entries of the triple loop over groups,
permissions and ranges.  The loop appears verbatim twice in the source
(inside `audit_ec2_resources` and inside `audit_security_groups`), so it
is embedded once and used by both. -/
def overlyPermissiveEntries (sgs : List SecurityGroup) : List PermissiveEntry :=
  sgs.flatMap fun sg => sg.ipPermissions.flatMap fun p => p.ipRanges.flatMap fun r =>
    if permissiveHit p r then
      [{ sg_id := sg.groupId, sg_name := sg.groupName, port := p.fromPort, cidr := "0.0.0.0/0" }]
    else []

/-- The findings of the same triple loop (see `overlyPermissiveEntries`). -/
def overlyPermissiveFindings (region : String) (sgs : List SecurityGroup) : List AuditFinding :=
  sgs.flatMap fun sg => sg.ipPermissions.flatMap fun p => p.ipRanges.flatMap fun r =>
    if permissiveHit p r then [permissiveFinding region sg p] else []

/-- `audit_ec2_resources`: returns the summary (or, faithfully to the
`except` clause, the error raised inside the instance loop) together
with the block of findings appended to `self.findings`; findings
appended before an exception persist. -/
def audit_ec2_resources (env : CloudEnv) (region : String) (now : ℤ) :
    Except String Ec2Summary × List AuditFinding :=
  let instFs := (instLoop region now env.instances {}).1
  match (instLoop region now env.instances {}).2 with
  | .error e => (.error e, instFs)
  | .ok s =>
    let volFs := volumeFindings region env.volumes
    let eipFs := eipFindings region env.addresses
    let sgFs := overlyPermissiveFindings region env.securityGroups
    (.ok {
      instances := s.counts
      volumes :=
        { attached := env.volumes.countP (fun v => ¬ (v.state = "available"))
          unattached := env.volumes.countP (fun v => v.state = "available")
          total := env.volumes.length }
      snapshots :=
        { total := env.snapshots.length
          old := env.snapshots.countP (fun sn => sn.startTime < now - 365 * 86400) }
      amis := { total := env.images, unused := 0 }
      elastic_ips :=
        { attached := env.addresses.countP (fun a => ¬ eipUnattached a)
          unattached := env.addresses.countP eipUnattached
          total := env.addresses.length }
      security_groups :=
        { total := env.securityGroups.length
          overly_permissive := overlyPermissiveEntries env.securityGroups } },
    instFs ++ volFs ++ eipFs ++ sgFs)

/-! ## `audit_lambda_functions` -/

structure LambdaSummary where
  total : ℕ
  by_runtime : List (String × ℕ)
  unused_functions : List String
  large_functions : List String
deriving DecidableEq

/-- The unused-Lambda finding (savings default 0). -/
def unusedLambdaFinding (region : String) (f : LambdaFunction) : AuditFinding :=
  { resource_type := .LAMBDA
    resource_id := f.functionName
    finding := "Unused Lambda function"
    severity := .MEDIUM
    description := "Function " ++ f.functionName ++ " not modified in 30+ days"
    recommendation := "Review and delete if not needed"
    region := region }

def audit_lambda_functions (env : CloudEnv) (region : String) (now : ℤ) :
    LambdaSummary × List AuditFinding :=
  let cutoff := now - 30 * 86400
  ({ total := env.lambdaFunctions.length
     by_runtime := env.lambdaFunctions.foldl (fun m f => bumpAssoc m f.runtime) []
     unused_functions :=
       (env.lambdaFunctions.filter (fun f => f.lastModified < cutoff)).map (·.functionName)
     large_functions :=
       (env.lambdaFunctions.filter (fun f => f.codeSize > 50 * 1024 * 1024)).map (·.functionName) },
   (env.lambdaFunctions.filter (fun f => f.lastModified < cutoff)).map (unusedLambdaFinding region))

/-! ## `audit_ecs_clusters`, `audit_batch_jobs` -/

structure EcsDetail where
  name : String
  status : String
  running_tasks : ℕ
  pending_tasks : ℕ
  active_services : ℕ
deriving DecidableEq

structure EcsSummary where
  total : ℕ
  clusters : List String
  details : List EcsDetail
deriving DecidableEq

def audit_ecs_clusters (env : CloudEnv) : EcsSummary :=
  { total := env.ecsClusters.length
    clusters := env.ecsClusters.map (·.clusterName)
    details := env.ecsClusters.map fun c =>
      { name := c.clusterName, status := c.status, running_tasks := c.runningTasks
        pending_tasks := c.pendingTasks, active_services := c.activeServices } }

structure BatchDetail where
  name : String
  state : String
  status : String
  priority : ℕ
deriving DecidableEq

structure BatchSummary where
  total_queues : ℕ
  queues : List String
  details : List BatchDetail
deriving DecidableEq

def audit_batch_jobs (env : CloudEnv) : BatchSummary :=
  { total_queues := env.batchQueues.length
    queues := env.batchQueues.map (·.jobQueueName)
    details := env.batchQueues.map fun q =>
      { name := q.jobQueueName, state := q.state, status := q.status, priority := q.priority } }

/-! ## `audit_s3_buckets` -/

/-- `bucket_info` (the `error` key is never set: the in-memory client is
total, so the generic per-bucket `except` is dead). -/
structure BucketInfo where
  name : String
  creation_date : ℤ
deriving DecidableEq

structure S3Summary where
  total : ℕ
  public_buckets : List String
  unencrypted_buckets : List String
  unversioned_buckets : List String
  empty_buckets : List String
  large_buckets : List String
  details : List BucketInfo
deriving DecidableEq

/-- The empty-bucket finding (savings default 0). -/
def emptyBucketFinding (region : String) (name : String) : AuditFinding :=
  { resource_type := .S3
    resource_id := name
    finding := "Empty S3 bucket"
    severity := .LOW
    description := "Bucket " ++ name ++ " contains no objects"
    recommendation := "Delete if not needed"
    region := region }

/-- The public-bucket finding (savings default 0). -/
def publicBucketFinding (region : String) (name : String) : AuditFinding :=
  { resource_type := .S3
    resource_id := name
    finding := "Public S3 bucket"
    severity := .CRITICAL
    description := "Bucket " ++ name ++ " is publicly accessible"
    recommendation := "Review and restrict bucket policy"
    region := region }

/-- The unencrypted-bucket finding (savings default 0). -/
def unencryptedBucketFinding (region : String) (name : String) : AuditFinding :=
  { resource_type := .S3
    resource_id := name
    finding := "Unencrypted S3 bucket"
    severity := .HIGH
    description := "Bucket " ++ name ++ " has no encryption enabled"
    recommendation := "Enable SSE-S3 or SSE-KMS encryption"
    region := region }

/-- Findings one bucket contributes, in check order: empty, public
(skipped when `get_bucket_policy_status` raises), unencrypted (when
`get_bucket_encryption` raises). -/
def bucketFindings (region : String) (b : Bucket) : List AuditFinding :=
  (if ¬ b.hasContents then [emptyBucketFinding region b.name] else []) ++
  (if b.policyStatus = some true then [publicBucketFinding region b.name] else []) ++
  (if ¬ b.encrypted then [unencryptedBucketFinding region b.name] else [])

def audit_s3_buckets (env : CloudEnv) (region : String) : S3Summary × List AuditFinding :=
  ({ total := env.buckets.length
     public_buckets := (env.buckets.filter (fun b => b.policyStatus = some true)).map (·.name)
     unencrypted_buckets := (env.buckets.filter (fun b => ¬ b.encrypted)).map (·.name)
     unversioned_buckets :=
       (env.buckets.filter (fun b => ¬ (b.versioningStatus = some "Enabled"))).map (·.name)
     empty_buckets := (env.buckets.filter (fun b => ¬ b.hasContents)).map (·.name)
     large_buckets := []
     details := env.buckets.map fun b => { name := b.name, creation_date := b.creationDate } },
   env.buckets.flatMap (bucketFindings region))

/-! ## `audit_ebs_volumes`, `audit_efs_filesystems` -/

structure UnattachedVol where
  id : String
  size : ℕ
  type : String
deriving DecidableEq

structure EbsSummary where
  total : ℕ
  by_type : List (String × ℕ)
  unattached : List UnattachedVol
  underutilized : List String
  cost_estimate : ℚ
deriving DecidableEq

def audit_ebs_volumes (env : CloudEnv) : EbsSummary :=
  { total := env.volumes.length
    by_type := env.volumes.foldl (fun m v => bumpAssoc m v.volumeType) []
    unattached := (env.volumes.filter (fun v => v.state = "available")).map fun v =>
      { id := v.volumeId, size := v.size, type := v.volumeType }
    underutilized := []
    cost_estimate := env.volumes.foldl
      (fun c v => if v.state = "available" then c + (v.size : ℚ) * (1/10) else c) 0 }

structure EfsDetail where
  id : String
  size : ℕ
  encrypted : Bool
  throughput_mode : String
deriving DecidableEq

structure EfsSummary where
  total : ℕ
  encrypted : ℕ
  details : List EfsDetail
deriving DecidableEq

def audit_efs_filesystems (env : CloudEnv) : EfsSummary :=
  { total := env.efsFileSystems.length
    encrypted := env.efsFileSystems.countP (·.encrypted)
    details := env.efsFileSystems.map fun fs =>
      { id := fs.fileSystemId, size := fs.sizeValue, encrypted := fs.encrypted
        throughput_mode := fs.throughputMode } }

/-! ## `audit_rds_instances`, `audit_dynamodb_tables`, `audit_elasticache_clusters` -/

structure RdsDetail where
  identifier : String
  engine : String
  instClass : String
  status : String
  storage : ℕ
  endpoint : Option String
deriving DecidableEq

structure RdsSummary where
  total : ℕ
  by_engine : List (String × ℕ)
  by_class : List (String × ℕ)
  multi_az : ℕ
  pub : ℕ
  stopped : ℕ
  details : List RdsDetail
deriving DecidableEq

/-- The public-RDS finding (savings default 0). -/
def publicRdsFinding (region : String) (db : RdsInstance) : AuditFinding :=
  { resource_type := .RDS
    resource_id := db.dbInstanceIdentifier
    finding := "Publicly accessible RDS instance"
    severity := .HIGH
    description := "RDS instance " ++ db.dbInstanceIdentifier ++ " is publicly accessible"
    recommendation := "Move to private subnet or use VPN"
    region := region }

/-- The stopped-RDS finding (savings default 0). -/
def stoppedRdsFinding (region : String) (db : RdsInstance) : AuditFinding :=
  { resource_type := .RDS
    resource_id := db.dbInstanceIdentifier
    finding := "Stopped RDS instance"
    severity := .MEDIUM
    description := "RDS instance " ++ db.dbInstanceIdentifier ++ " is stopped"
    recommendation := "Delete if not needed to avoid storage costs"
    region := region }

/-- Findings one DB instance contributes, in check order. -/
def rdsFindings (region : String) (db : RdsInstance) : List AuditFinding :=
  (if db.publiclyAccessible then [publicRdsFinding region db] else []) ++
  (if db.dbInstanceStatus = "stopped" then [stoppedRdsFinding region db] else [])

def audit_rds_instances (env : CloudEnv) (region : String) : RdsSummary × List AuditFinding :=
  ({ total := env.rdsInstances.length
     by_engine := env.rdsInstances.foldl (fun m db => bumpAssoc m db.engine) []
     by_class := env.rdsInstances.foldl (fun m db => bumpAssoc m db.dbInstanceClass) []
     multi_az := env.rdsInstances.countP (·.multiAZ)
     pub := env.rdsInstances.countP (·.publiclyAccessible)
     stopped := env.rdsInstances.countP (fun db => db.dbInstanceStatus = "stopped")
     details := env.rdsInstances.map fun db =>
       { identifier := db.dbInstanceIdentifier, engine := db.engine
         instClass := db.dbInstanceClass, status := db.dbInstanceStatus
         storage := db.allocatedStorage, endpoint := db.endpointAddress } },
   env.rdsInstances.flatMap (rdsFindings region))

structure TableDetail where
  name : String
  status : String
  items : ℕ
  size_bytes : ℕ
  billing_mode : String
  encryption : String
deriving DecidableEq

/-- The DynamoDB summary: the source stores the table-name LIST itself
under the `total` key and the count under `count`. -/
structure DynamoSummary where
  total : List String
  count : ℕ
  details : List TableDetail
deriving DecidableEq

def audit_dynamodb_tables (env : CloudEnv) : DynamoSummary :=
  { total := env.dynamoTables.map (·.name)
    count := env.dynamoTables.length
    details := (env.dynamoTables.take 20).map fun t =>
      { name := t.name, status := t.status, items := t.items, size_bytes := t.sizeBytes
        billing_mode := t.billingMode.getD "PROVISIONED"
        encryption := if t.sseEnabled then "Enabled" else "Disabled" } }

structure CacheDetail where
  id : String
  engine : String
  status : String
  node_type : String
  nodes : ℕ
deriving DecidableEq

structure ElasticacheSummary where
  total : ℕ
  by_engine : List (String × ℕ)
  details : List CacheDetail
deriving DecidableEq

def audit_elasticache_clusters (env : CloudEnv) : ElasticacheSummary :=
  { total := env.cacheClusters.length
    by_engine := env.cacheClusters.foldl (fun m c => bumpAssoc m c.engine) []
    details := env.cacheClusters.map fun c =>
      { id := c.cacheClusterId, engine := c.engine, status := c.status
        node_type := c.nodeType, nodes := c.numNodes } }

/-! ## `audit_vpc_resources`, `audit_security_groups` -/

structure VpcSummary where
  vpcs : ℕ
  subnets : ℕ
  route_tables : ℕ
  nat_gateways : ℕ := 0
  internet_gateways : ℕ := 0
  vpc_endpoints : ℕ := 0
deriving DecidableEq

/-- The default-VPC finding (savings default 0). -/
def defaultVpcFinding (region : String) (v : Vpc) : AuditFinding :=
  { resource_type := .VPC
    resource_id := v.vpcId
    finding := "Default VPC in use"
    severity := .INFO
    description := "Using default VPC for resources"
    recommendation := "Consider creating custom VPCs for production"
    region := region }

def audit_vpc_resources (env : CloudEnv) (region : String) : VpcSummary × List AuditFinding :=
  ({ vpcs := env.vpcs.length
     subnets := env.subnets
     route_tables := env.routeTables },
   (env.vpcs.filter (·.isDefault)).map (defaultVpcFinding region))

structure SgAuditSummary where
  total : ℕ
  overly_permissive : List PermissiveEntry
  unused : List String
deriving DecidableEq

/-- `audit_security_groups`: its triple loop over groups, permissions
and ranges is character-for-character the loop of `audit_ec2_resources`,
embedded once as `overlyPermissiveEntries` / `overlyPermissiveFindings`. -/
def audit_security_groups (env : CloudEnv) (region : String) :
    SgAuditSummary × List AuditFinding :=
  let used := env.networkInterfaces.flatMap (·.groups)
  ({ total := env.securityGroups.length
     overly_permissive := overlyPermissiveEntries env.securityGroups
     unused := (env.securityGroups.filter (fun sg => ¬ sg.groupId ∈ used)).map (·.groupId) },
   overlyPermissiveFindings region env.securityGroups)

/-! ## Networking, security and tooling summaries (no findings) -/

structure CfDetail where
  id : String
  domain : String
  status : String
  enabled : Bool
  price_class : String
deriving DecidableEq

structure CloudfrontSummary where
  total : ℕ
  enabled : ℕ
  disabled : ℕ
  details : List CfDetail
deriving DecidableEq

def audit_cloudfront_distributions (env : CloudEnv) : CloudfrontSummary :=
  let dl := env.distributionList
  match dl.items with
  | none => { total := dl.quantity, enabled := 0, disabled := 0, details := [] }
  | some items =>
    { total := dl.quantity
      enabled := items.countP (·.enabled)
      disabled := items.countP (fun d => ¬ d.enabled)
      details := items.map fun d =>
        { id := d.distId, domain := d.domainName, status := d.status
          enabled := d.enabled, price_class := d.priceClass } }

structure ZoneDetail where
  id : String
  name : String
  privateFlag : Bool
  record_count : ℕ
deriving DecidableEq

/-- The Route53 summary: the source stores the zone LIST itself under
the `total` key ('total': zones['HostedZones']). -/
structure Route53Summary where
  total : List HostedZone
  pubCount : ℕ
  privCount : ℕ
  details : List ZoneDetail
deriving DecidableEq

def audit_route53_zones (env : CloudEnv) : Route53Summary :=
  { total := env.hostedZones
    pubCount := env.hostedZones.countP (fun z => ¬ z.privateZone)
    privCount := env.hostedZones.countP (·.privateZone)
    details := env.hostedZones.map fun z =>
      { id := z.zoneId, name := z.name, privateFlag := z.privateZone
        record_count := z.recordSetCount } }

structure ApiDetail where
  id : String
  name : String
  endpoint_type : String
deriving DecidableEq

structure ApiGwSummary where
  total : ℕ
  details : List ApiDetail
deriving DecidableEq

def audit_api_gateway (env : CloudEnv) : ApiGwSummary :=
  { total := env.restApis.length
    details := env.restApis.map fun a =>
      { id := a.apiId, name := a.name, endpoint_type := a.endpointType } }

structure KmsDetail where
  id : String
  arn : String
deriving DecidableEq

structure KmsSummary where
  total : ℕ
  details : List KmsDetail
deriving DecidableEq

def audit_kms_keys (env : CloudEnv) : KmsSummary :=
  { total := env.kmsKeys.length
    details := env.kmsKeys.map fun k => { id := k.keyId, arn := k.keyArn } }

structure CloudwatchSummary where
  alarms : ℕ
  log_groups : ℕ := 0
  alarm_states : List (String × ℕ)
deriving DecidableEq

def audit_cloudwatch (env : CloudEnv) : CloudwatchSummary :=
  { alarms := env.alarmStates.length
    alarm_states := env.alarmStates.foldl (fun m st => bumpAssoc m st)
      [("OK", 0), ("ALARM", 0), ("INSUFFICIENT_DATA", 0)] }

structure StackDetail where
  name : String
  status : String
deriving DecidableEq

structure CfnSummary where
  total : ℕ
  by_status : List (String × ℕ)
  details : List StackDetail
deriving DecidableEq

def audit_cloudformation_stacks (env : CloudEnv) : CfnSummary :=
  { total := env.stackSummaries.length
    by_status := env.stackSummaries.foldl (fun m st => bumpAssoc m st.stackStatus) []
    details := env.stackSummaries.map fun st =>
      { name := st.stackName, status := st.stackStatus } }

structure CodeSummary where
  codebuild_projects : ℕ
  codepipeline_pipelines : ℕ
  codedeploy_applications : ℕ
deriving DecidableEq

def audit_code_services (env : CloudEnv) : CodeSummary :=
  { codebuild_projects := env.codebuildProjects
    codepipeline_pipelines := env.codepipelinePipelines
    codedeploy_applications := env.codedeployApplications }

structure TopicDetail where
  arn : String
  name : String
deriving DecidableEq

structure SnsSummary where
  total : ℕ
  details : List TopicDetail
deriving DecidableEq

def audit_sns_topics (env : CloudEnv) : SnsSummary :=
  { total := env.snsTopicArns.length
    details := env.snsTopicArns.map fun arn =>
      { arn := arn, name := (arn.splitOn ":").getLastD "" } }

structure QueueDetail where
  url : String
  name : String
deriving DecidableEq

structure SqsSummary where
  total : ℕ
  details : List QueueDetail
deriving DecidableEq

def audit_sqs_queues (env : CloudEnv) : SqsSummary :=
  { total := env.sqsQueueUrls.length
    details := env.sqsQueueUrls.map fun url =>
      { url := url, name := (url.splitOn "/").getLastD "" } }

structure RuleDetail where
  name : String
  state : String
deriving DecidableEq

structure EventSummary where
  rules : ℕ
  event_buses : ℕ := 0
  details : List RuleDetail
deriving DecidableEq

def audit_eventbridge (env : CloudEnv) : EventSummary :=
  { rules := env.eventRules.length
    details := env.eventRules.map fun r => { name := r.name, state := r.state } }

/-! ## `analyze_costs`, `check_compliance` -/

structure CostAnalysisSummary where
  estimated_monthly_cost : ℚ := 0
  potential_savings : ℚ
  top_cost_centers : List String := []
deriving DecidableEq

/-- `analyze_costs` reads `self.findings` as accumulated at its call
site (after every finding-emitting audit of the run). -/
def analyze_costs (findings : List AuditFinding) : CostAnalysisSummary :=
  { potential_savings := findings.foldl (fun a f => a + f.estimated_savings) 0 }

structure ComplianceCheck where
  id : String
  description : String
  severity : String
deriving DecidableEq

structure ComplianceSummary where
  checks : List ComplianceCheck
  passed : ℕ := 0
  failed : ℕ := 0
deriving DecidableEq

def check_compliance : ComplianceSummary :=
  { checks :=
      [ { id := "MFA_ENABLED", description := "Root user has MFA enabled"
          severity := "CRITICAL" }
      , { id := "S3_ENCRYPTION", description := "S3 buckets have encryption enabled"
          severity := "HIGH" }
      , { id := "PUBLIC_ACCESS_BLOCKED", description := "S3 public access is blocked"
          severity := "HIGH" }
      , { id := "OLD_ACCESS_KEYS", description := "No access keys older than 90 days"
          severity := "MEDIUM" } ] }

/-! ## `audit_iam_resources` -/

structure UserCounts where
  total : ℕ
  with_mfa : ℕ
  without_mfa : ℕ
  list : List String
deriving DecidableEq

structure RoleCounts where
  total : ℕ
deriving DecidableEq

structure PolicyCounts where
  total : ℕ
deriving DecidableEq

structure KeyCounts where
  total : ℕ
  old : ℕ
deriving DecidableEq

/-- The success result of `audit_iam_resources` (its `findings` key is
initialised to `[]` and never written). -/
structure IamSummary where
  users : UserCounts
  roles : RoleCounts
  policies : PolicyCounts
  access_keys : KeyCounts
  findings : List AuditFinding := []
deriving DecidableEq

/-- The missing-MFA finding (savings default 0). -/
def noMfaFinding (region : String) (u : IamUser) : AuditFinding :=
  { resource_type := .IAM
    resource_id := u.userName
    finding := "IAM user without MFA"
    severity := .HIGH
    description := "User " ++ u.userName ++ " does not have MFA enabled"
    recommendation := "Enable MFA immediately"
    region := region }

/-- The old-access-key finding (savings default 0). -/
def oldKeyFinding (region : String) (now : ℤ) (userName : String) (k : AccessKey) :
    AuditFinding :=
  { resource_type := .IAM
    resource_id := k.accessKeyId
    finding := "Old IAM access key"
    severity := .MEDIUM
    description := "Access key " ++ k.accessKeyId ++ " for user " ++ userName ++
      " is " ++ toString (tdDays now k.createDate) ++ " days old"
    recommendation := "Rotate access key"
    region := region }

/-- Findings one user contributes, in loop order: the MFA check, then
one finding per access key older than 90 days. -/
def userFindings (region : String) (now : ℤ) (u : IamUser) : List AuditFinding :=
  (if u.mfaDevices > 0 then [] else [noMfaFinding region u]) ++
  u.accessKeys.flatMap
    (fun k => if tdDays now k.createDate > 90 then [oldKeyFinding region now u.userName k] else [])

def audit_iam_resources (env : CloudEnv) (region : String) (now : ℤ) :
    IamSummary × List AuditFinding :=
  ({ users :=
       { total := env.users.length
         with_mfa := env.users.countP (fun u => u.mfaDevices > 0)
         without_mfa := env.users.countP (fun u => ¬ (u.mfaDevices > 0))
         list := env.users.map (·.userName) }
     roles := { total := env.roles }
     policies := { total := env.policies }
     access_keys :=
       { total := (env.users.map (fun u => u.accessKeys.length)).sum
         old := (env.users.map
           (fun u => u.accessKeys.countP (fun k => tdDays now k.createDate > 90))).sum } },
   env.users.flatMap (userFindings region now))

/-! ## Report assembly (`run_complete_audit`) -/

/-- One value of the `services` dict of the complete-audit report; the
`err` constructor is the `{'error': str(e)}` dict an audit method
returns from its `except` clause. -/
inductive SummaryVal
  | ec2V : Ec2Summary → SummaryVal
  | lamV : LambdaSummary → SummaryVal
  | ecsV : EcsSummary → SummaryVal
  | batchV : BatchSummary → SummaryVal
  | s3V : S3Summary → SummaryVal
  | ebsV : EbsSummary → SummaryVal
  | efsV : EfsSummary → SummaryVal
  | rdsV : RdsSummary → SummaryVal
  | ddbV : DynamoSummary → SummaryVal
  | cacheV : ElasticacheSummary → SummaryVal
  | vpcV : VpcSummary → SummaryVal
  | cfV : CloudfrontSummary → SummaryVal
  | r53V : Route53Summary → SummaryVal
  | apiV : ApiGwSummary → SummaryVal
  | iamV : IamSummary → SummaryVal
  | sgV : SgAuditSummary → SummaryVal
  | kmsV : KmsSummary → SummaryVal
  | cwV : CloudwatchSummary → SummaryVal
  | cfnV : CfnSummary → SummaryVal
  | codeV : CodeSummary → SummaryVal
  | snsV : SnsSummary → SummaryVal
  | sqsV : SqsSummary → SummaryVal
  | evtV : EventSummary → SummaryVal
  | costV : CostAnalysisSummary → SummaryVal
  | compV : ComplianceSummary → SummaryVal
  | err : String → SummaryVal
deriving DecidableEq

/-- `'error' in s` on a services-dict value. -/
def SummaryVal.hasError : SummaryVal → Bool
  | .err _ => true
  | _ => false

def ec2ToVal : Except String Ec2Summary → SummaryVal
  | .ok s => .ec2V s
  | .error e => .err e

/-- `report['summary']` of `run_complete_audit`. -/
structure ReportSummary where
  total_resources_audited : ℕ
  total_findings : ℕ
  critical_findings : ℕ
  estimated_monthly_savings : ℚ
  audit_duration : String := "N/A"
  services_with_issues : ℕ
deriving DecidableEq

/-- `_generate_summary` (its local `total_resources = 0` is dead code:
the returned `total_resources_audited` is `len(services)`). -/
def generate_summary (services : List (String × SummaryVal)) (findings : List AuditFinding) :
    ReportSummary :=
  { total_resources_audited := services.length
    total_findings := findings.length
    critical_findings :=
      (findings.filter (fun f => f.severity = .CRITICAL ∨ f.severity = .HIGH)).length
    estimated_monthly_savings := totalSavings findings
    services_with_issues := (services.filter (fun s => ¬ s.2.hasError)).length }

structure Recommendation where
  resource_type : String
  total_issues : ℕ
  critical_issues : ℕ
  estimated_savings : ℚ
  actions : List String
deriving DecidableEq

/-- Ordered-dict grouping of findings by `resource_type.value`. -/
def groupAdd (gs : List (String × List AuditFinding)) (f : AuditFinding) :
    List (String × List AuditFinding) :=
  let k := f.resource_type.value
  if gs.any (fun g => g.1 = k) then gs.map (fun g => if g.1 = k then (g.1, g.2 ++ [f]) else g)
  else gs ++ [(k, [f])]

/-- The fixed per-kind action lists of `_generate_recommendations`. -/
def actionsFor : String → List String
  | "EC2" => ["Review and terminate idle instances", "Release unattached Elastic IPs"]
  | "S3" => ["Enable encryption on buckets", "Review public access settings"]
  | "IAM" => ["Enable MFA for all users", "Rotate old access keys"]
  | "RDS" => ["Review publicly accessible databases"]
  | _ => []

/-- `_generate_recommendations`. -/
def generate_recommendations (findings : List AuditFinding) : List Recommendation :=
  (findings.foldl groupAdd []).filterMap fun g =>
    if g.2.length ≠ 0 then
      some
        { resource_type := g.1
          total_issues := g.2.length
          critical_issues :=
            (g.2.filter (fun f => f.severity = .CRITICAL ∨ f.severity = .HIGH)).length
          estimated_savings := totalSavings g.2
          actions := actionsFor g.1 }
    else none

/-- `report['metadata']` (the wall-clock ISO timestamp is omitted). -/
structure ReportMetadata where
  account_id : String
  region : String
  auditor_version : String := "2.1"
deriving DecidableEq

structure Report where
  metadata : ReportMetadata
  services : List (String × SummaryVal)
  findings : List AuditFinding
  summary : ReportSummary
  recommendations : List Recommendation
deriving DecidableEq

/-- `run_complete_audit` on a non-demo auditor whose `self.findings`
holds `findings0` (the list is an instance attribute that is never
cleared, so it may be non-empty from earlier runs).  The per-service
audits run in program order; each appends its block of findings. -/
def run_complete_audit (env : CloudEnv) (accountId region : String) (now : ℤ)
    (findings0 : List AuditFinding) : Report :=
  let ec2R := (audit_ec2_resources env region now).1
  let b1 := (audit_ec2_resources env region now).2
  let lamS := (audit_lambda_functions env region now).1
  let b2 := (audit_lambda_functions env region now).2
  let ecsSum := audit_ecs_clusters env
  let batchSum := audit_batch_jobs env
  let s3Sum := (audit_s3_buckets env region).1
  let b3 := (audit_s3_buckets env region).2
  let ebsSum := audit_ebs_volumes env
  let efsSum := audit_efs_filesystems env
  let rdsSum := (audit_rds_instances env region).1
  let b4 := (audit_rds_instances env region).2
  let ddb := audit_dynamodb_tables env
  let cache := audit_elasticache_clusters env
  let vpcSum := (audit_vpc_resources env region).1
  let b5 := (audit_vpc_resources env region).2
  let cf := audit_cloudfront_distributions env
  let r53 := audit_route53_zones env
  let apiSum := audit_api_gateway env
  let iamSum := (audit_iam_resources env region now).1
  let b6 := (audit_iam_resources env region now).2
  let sgSum := (audit_security_groups env region).1
  let b7 := (audit_security_groups env region).2
  let kms := audit_kms_keys env
  let cw := audit_cloudwatch env
  let cfn := audit_cloudformation_stacks env
  let code := audit_code_services env
  let sns := audit_sns_topics env
  let sqs := audit_sqs_queues env
  let evt := audit_eventbridge env
  let fsAll := findings0 ++ b1 ++ b2 ++ b3 ++ b4 ++ b5 ++ b6 ++ b7
  let cost := analyze_costs fsAll
  let services : List (String × SummaryVal) :=
    [ ("ec2", ec2ToVal ec2R), ("lambda", .lamV lamS), ("ecs", .ecsV ecsSum)
    , ("batch", .batchV batchSum), ("s3", .s3V s3Sum), ("ebs", .ebsV ebsSum)
    , ("efs", .efsV efsSum), ("rds", .rdsV rdsSum), ("dynamodb", .ddbV ddb)
    , ("elasticache", .cacheV cache), ("vpc", .vpcV vpcSum), ("cloudfront", .cfV cf)
    , ("route53", .r53V r53), ("api_gateway", .apiV apiSum), ("iam", .iamV iamSum)
    , ("security_groups", .sgV sgSum), ("kms", .kmsV kms), ("cloudwatch", .cwV cw)
    , ("cloudformation", .cfnV cfn), ("code_services", .codeV code), ("sns", .snsV sns)
    , ("sqs", .sqsV sqs), ("eventbridge", .evtV evt), ("cost_analysis", .costV cost)
    , ("compliance", .compV check_compliance) ]
  { metadata := { account_id := accountId, region := region }
    services := services
    findings := fsAll
    summary := generate_summary services fsAll
    recommendations := generate_recommendations fsAll }

/-! ## `get_structured_audit` -/

/-- One serialized finding of the structured result (`str(enum)` with
the class prefix stripped gives the member name). -/
structure StructuredFinding where
  resource_type : String
  resource_id : String
  finding : String
  severity : String
  description : String
  recommendation : String
  estimated_savings : ℚ
  region : String
deriving DecidableEq

def toStructuredFinding (f : AuditFinding) : StructuredFinding :=
  { resource_type := f.resource_type.memberName
    resource_id := f.resource_id
    finding := f.finding
    severity := f.severity.memberName
    description := f.description
    recommendation := f.recommendation
    estimated_savings := f.estimated_savings
    region := f.region }

structure StructCost where
  total_potential_savings : ℚ
  estimated_monthly_cost : ℚ := 0
deriving DecidableEq

structure StructSummary where
  total_resources_audited : ℕ
  total_findings : ℕ
  estimated_monthly_savings : ℚ
deriving DecidableEq

structure StructInstances where
  total : ℕ
  running : ℕ
  stopped : ℕ
deriving DecidableEq

structure StructPair where
  attached : ℕ
  unattached : ℕ
deriving DecidableEq

structure StructSnapshots where
  total : ℕ
  old : ℕ
deriving DecidableEq

structure StructAmis where
  total : ℕ
  unused : ℕ
deriving DecidableEq

structure StructEc2 where
  instances : StructInstances
  volumes : StructPair
  elastic_ips : StructPair
  snapshots : StructSnapshots
  amis : StructAmis
  findings : List StructuredFinding := []
deriving DecidableEq

structure StructUsers where
  total : ℕ
  with_mfa : ℕ
  without_mfa : ℕ
deriving DecidableEq

structure StructTotal where
  total : ℕ
deriving DecidableEq

structure StructKeys where
  total : ℕ
  old : ℕ
deriving DecidableEq

structure StructIam where
  users : StructUsers
  roles : StructTotal
  policies : StructTotal
  access_keys : StructKeys
  findings : List StructuredFinding := []
deriving DecidableEq

structure StructS3 where
  total : ℕ
  empty_buckets : List String
  large_buckets : List String
  public_buckets : List String
  unencrypted_buckets : List String
  unversioned_buckets : List String
  details : List BucketInfo
deriving DecidableEq

structure StructDetails where
  ec2 : StructEc2
  iam : StructIam
  s3 : StructS3
deriving DecidableEq

/-- The structured result (wall-clock `timestamp` omitted). -/
structure StructuredResult where
  cost_analysis : StructCost
  summary : StructSummary
  details : StructDetails
  findings : List StructuredFinding
  status : String := "success"
  region : String
deriving DecidableEq

/-- The `details['ec2']` block: every field read through `.get(...)`
chains with default `0`, so an errored EC2 audit contributes zeros. -/
def structEc2Details : Except String Ec2Summary → StructEc2
  | .ok e =>
    { instances := { total := e.instances.total, running := e.instances.running
                     stopped := e.instances.stopped }
      volumes := { attached := e.volumes.attached, unattached := e.volumes.unattached }
      elastic_ips := { attached := e.elastic_ips.attached
                       unattached := e.elastic_ips.unattached }
      snapshots := { total := e.snapshots.total, old := e.snapshots.old }
      amis := { total := e.amis.total, unused := e.amis.unused } }
  | .error _ =>
    { instances := { total := 0, running := 0, stopped := 0 }
      volumes := { attached := 0, unattached := 0 }
      elastic_ips := { attached := 0, unattached := 0 }
      snapshots := { total := 0, old := 0 }
      amis := { total := 0, unused := 0 } }

/-- The `total_resources` accumulation of `get_structured_audit` (each
addend guarded by key-presence checks, absent on the error shape). -/
def structTotalResources (ec2R : Except String Ec2Summary) (iamSum : IamSummary)
    (s3Sum : S3Summary) : ℕ :=
  (match ec2R with
   | .ok e => e.instances.total + e.volumes.total + e.elastic_ips.total +
       e.snapshots.total + e.amis.total + e.security_groups.total
   | .error _ => 0) +
  (iamSum.users.total + iamSum.roles.total + iamSum.policies.total) +
  s3Sum.total

/-- `get_structured_audit` on an auditor whose `self.findings` holds
`findings0`: it runs the EC2, S3 and IAM audits (appending to the never
cleared `self.findings`) and serializes ALL accumulated findings.
Returns the result together with the auditor's new `self.findings`. -/
def get_structured_audit (env : CloudEnv) (region : String) (now : ℤ)
    (findings0 : List AuditFinding) : StructuredResult × List AuditFinding :=
  let ec2R := (audit_ec2_resources env region now).1
  let b1 := (audit_ec2_resources env region now).2
  let s3Sum := (audit_s3_buckets env region).1
  let b2 := (audit_s3_buckets env region).2
  let iamSum := (audit_iam_resources env region now).1
  let b3 := (audit_iam_resources env region now).2
  let fs := findings0 ++ b1 ++ b2 ++ b3
  let total_savings := totalSavings fs
  ({ cost_analysis := { total_potential_savings := total_savings }
     summary :=
       { total_resources_audited := structTotalResources ec2R iamSum s3Sum
         total_findings := fs.length
         estimated_monthly_savings := total_savings }
     details :=
       { ec2 := structEc2Details ec2R
         iam :=
           { users := { total := iamSum.users.total, with_mfa := iamSum.users.with_mfa
                        without_mfa := iamSum.users.without_mfa }
             roles := { total := iamSum.roles.total }
             policies := { total := iamSum.policies.total }
             access_keys := { total := iamSum.access_keys.total
                              old := iamSum.access_keys.old } }
         s3 :=
           { total := s3Sum.total
             empty_buckets := s3Sum.empty_buckets
             large_buckets := s3Sum.large_buckets
             public_buckets := s3Sum.public_buckets
             unencrypted_buckets := s3Sum.unencrypted_buckets
             unversioned_buckets := s3Sum.unversioned_buckets
             details := s3Sum.details } }
     findings := fs.map toStructuredFinding
     region := region },
   fs)

/-! ## `/api/aws/audit/quick` (`aws_audit_quick` in `app.py`) -/

structure QuickItem where
  type : String
  count : ℕ
  cost_per_month : ℚ
  action : String
deriving DecidableEq

/-- The quick result (wall-clock `timestamp` omitted). -/
structure QuickResult where
  critical_items : List QuickItem
  estimated_monthly_cost : ℚ
  aws_audit_available : Bool := true
deriving DecidableEq

/-- The `/api/aws/audit/quick` handler body on the module-level auditor
singleton: invokes `get_structured_audit` and rebuilds cost items from
the `details['ec2']` counters with flat per-resource rates. -/
def aws_audit_quick (env : CloudEnv) (region : String) (now : ℤ)
    (findings0 : List AuditFinding) : QuickResult × List AuditFinding :=
  let result := (get_structured_audit env region now findings0).1
  let fs := (get_structured_audit env region now findings0).2
  let ec2d := result.details.ec2
  let items : List QuickItem :=
    (if ec2d.volumes.unattached > 0 then
      [{ type := "unattached_ebs", count := ec2d.volumes.unattached
         cost_per_month := (ec2d.volumes.unattached : ℚ) * 5
         action := "Delete unattached volumes" }]
    else []) ++
    (if ec2d.elastic_ips.unattached > 0 then
      [{ type := "unattached_eip", count := ec2d.elastic_ips.unattached
         cost_per_month := (ec2d.elastic_ips.unattached : ℚ) * (18/5)
         action := "Release Elastic IPs" }]
    else []) ++
    (if ec2d.instances.stopped > 0 then
      [{ type := "stopped_instances", count := ec2d.instances.stopped
         cost_per_month := (ec2d.instances.stopped : ℚ) * 10
         action := "Terminate stopped instances" }]
    else [])
  ({ critical_items := items
     estimated_monthly_cost := (items.map (·.cost_per_month)).sum },
   fs)

/-! ## Metrics ring buffers (`RealTimeMonitor.__init__`) -/

/-- `collections.deque(maxlen=m).append`: when the deque is full the
oldest (leftmost) entry is evicted. -/
def dequeAppend {α : Type} (m : ℕ) (buf : List α) (x : α) : List α :=
  if buf.length < m then buf ++ [x] else buf.drop 1 ++ [x]

/-- `max_history = 720` (`app.py` and `monitor.py`). -/
def maxHistory : ℕ := 720

/-- One `{'time': ..., 'value': ...}` point of a history series. -/
structure HistoryPoint where
  time : ℤ
  value : ℚ
deriving DecidableEq

/-- Append to one of `cpu_history` / `memory_history` / `disk_history`. -/
def historyAppend (buf : List HistoryPoint) (p : HistoryPoint) : List HistoryPoint :=
  dequeAppend maxHistory buf p

/-! ## Visitor accounting -/

/-- Python `x or default` on an optional string (empty strings are
falsy). -/
def pyOr (s : Option String) (d : String) : String :=
  match s with
  | none => d
  | some v => if v = "" then d else v

/-- One entry of `monitor.visitor_details` (wall-clock `timestamp`
omitted). -/
structure VisitInfo where
  ip : String
  user_agent : String
  visitor_number : ℕ
deriving DecidableEq

/-- The in-process visitor state of `RealTimeMonitor`. -/
structure MonitorState where
  visitors : ℕ := 0
  visitor_details : List VisitInfo := []
deriving DecidableEq

/-- `RealTimeMonitor.increment_visitor`: appends the new record at the
tail and pops the head beyond 50 retained records. -/
def increment_visitor (s : MonitorState) (ip ua : Option String) : MonitorState × ℕ :=
  let n := s.visitors + 1
  let info : VisitInfo :=
    { ip := pyOr ip "unknown", user_agent := (pyOr ua "unknown").take 100, visitor_number := n }
  let ds := s.visitor_details ++ [info]
  let ds := if ds.length > 50 then ds.drop 1 else ds
  ({ visitors := n, visitor_details := ds }, n)

/-- One serialized record pushed to the cache list `recent_visits`
(wall-clock `timestamp` omitted; the JSON round trip is the identity). -/
structure RedisVisit where
  user_agent : String
  ip : String
deriving DecidableEq

/-- The KV backend contents (`MemoryStore` / the cache), keys
`visitor_count` and `recent_visits`. -/
structure StoreState where
  visitor_count : ℕ := 0
  recent_visits : List RedisVisit := []
deriving DecidableEq

/-- `lrange(key, a, b)` = `data[key][a:b+1]`. -/
def lrange {α : Type} (l : List α) (a b : ℕ) : List α := (l.drop a).take (b + 1 - a)

/-- The visit-tracking state of the process: the KV backend plus the
monitor singleton. -/
structure AppVisitState where
  store : StoreState := {}
  monitor : MonitorState := {}
deriving DecidableEq

/-- `increment_visitor_counter` (`app.py`): `incr` the counter, `lpush`
the serialized record (prepend), `ltrim` to the first 50, and also track
in the monitor. -/
def increment_visitor_counter (st : AppVisitState) (ip : String) (ua : Option String) :
    AppVisitState × ℕ :=
  let count := st.store.visitor_count + 1
  let visit : RedisVisit := { user_agent := (ua.getD "Unknown").take 100, ip := ip }
  let recent := lrange (visit :: st.store.recent_visits) 0 49
  let m := (increment_visitor st.monitor (some ip) ua).1
  ({ store := { visitor_count := count, recent_visits := recent }, monitor := m }, count)

/-- The `/api/visitors` response. -/
structure VisitorsResponse where
  total : ℕ
  recent : List RedisVisit
  flask_visitors : ℕ
  flask_recent : List VisitInfo
deriving DecidableEq

/-- The `/api/visitors` handler: `lrange('recent_visits', 0, 9)` from
the cache list and `monitor.visitor_details[:10]` from the in-process
list. -/
def visitors_endpoint (st : AppVisitState) : VisitorsResponse :=
  { total := st.store.visitor_count
    recent := lrange st.store.recent_visits 0 9
    flask_visitors := st.monitor.visitors
    flask_recent := st.monitor.visitor_details.take 10 }

/-! ## `/api/cost` (`cost_calculator`) -/

def FARGATE_CPU_PRICE : ℚ := 4048 / 100000

def FARGATE_MEMORY_PRICE : ℚ := 445 / 100000

def digitsToNat (ds : List Char) : ℕ :=
  ds.foldl (fun a c => a * 10 + (c.toNat - 48)) 0

/-- Split a leading run of ASCII digits. -/
def spanDigits : List Char → List Char × List Char
  | [] => ([], [])
  | c :: cs =>
    if c.isDigit then
      let p := spanDigits cs
      (c :: p.1, p.2)
    else ([], c :: cs)

def isSpaceChar (c : Char) : Bool :=
  c = ' ' ∨ c = '\t' ∨ c = '\n' ∨ c = '\r'

/-- Exponent part after `e`/`E`: optional sign, then digits to the end. -/
def parseExponent (cs : List Char) : Option ℤ :=
  let p : ℤ × List Char :=
    match cs with
    | '+' :: r => (1, r)
    | '-' :: r => (-1, r)
    | r => (1, r)
  let d := spanDigits p.2
  if d.1 = [] ∨ d.2 ≠ [] then none
  else some (p.1 * (digitsToNat d.1 : ℤ))

/-- Python `float(...)` on finite decimal literals: optional
whitespace, optional sign, digits with at most one point (at least one
digit overall), optional exponent.  `none` models the `ValueError` the
conversion raises on anything else (the special forms `inf`/`nan` and
underscore separators are outside this model). -/
def pyFloat (s : String) : Option ℚ :=
  let cs := (s.toList.dropWhile isSpaceChar).reverse.dropWhile isSpaceChar |>.reverse
  let sp : ℚ × List Char :=
    match cs with
    | '+' :: r => (1, r)
    | '-' :: r => (-1, r)
    | r => (1, r)
  let ipPart := spanDigits sp.2
  let fpPart : List Char × List Char :=
    match ipPart.2 with
    | '.' :: r => spanDigits r
    | r => ([], r)
  if ipPart.1 = [] ∧ fpPart.1 = [] then none
  else
    let mant : ℚ :=
      (digitsToNat ipPart.1 : ℚ) + (digitsToNat fpPart.1 : ℚ) / ((10 : ℚ) ^ fpPart.1.length)
    match fpPart.2 with
    | [] => some (sp.1 * mant)
    | 'e' :: r => (parseExponent r).map fun e => sp.1 * mant * (10 : ℚ) ^ e
    | 'E' :: r => (parseExponent r).map fun e => sp.1 * mant * (10 : ℚ) ^ e
    | _ => none

/-- `request.args.get(name, default)` then `float(...)`: an absent
parameter yields the float default unparsed; a present one is parsed,
`none` modelling the uncaught `ValueError`. -/
def argFloat (arg : Option String) (d : ℚ) : Option ℚ :=
  match arg with
  | none => some d
  | some s => pyFloat s

/-- Round-half-to-even to an integer (Python `round` on our exact
rationals; binary-double double-rounding is outside the model). -/
def roundHalfEven (q : ℚ) : ℤ :=
  let f := ⌊q⌋
  let r := q - f
  if r < 1/2 then f
  else if 1/2 < r then f + 1
  else if f % 2 = 0 then f else f + 1

/-- Python `round(q, n)`. -/
def pyRound (q : ℚ) (n : ℕ) : ℚ :=
  (roundHalfEven (q * 10 ^ n) : ℚ) / 10 ^ n

/-- The cost JSON of the handler (`resources` and `costs` flattened;
pricing echoes and the timestamp omitted). -/
structure CostResponse where
  cpu : ℚ
  memory : ℚ
  hourly : ℚ
  daily : ℚ
  monthly : ℚ
  yearly : ℚ
deriving DecidableEq

def mkCostResponse (cpu memory : ℚ) : CostResponse :=
  let hourly := cpu * FARGATE_CPU_PRICE + memory * FARGATE_MEMORY_PRICE
  { cpu := cpu
    memory := memory
    hourly := pyRound hourly 4
    daily := pyRound (hourly * 24) 2
    monthly := pyRound (hourly * 24 * 30) 2
    yearly := pyRound (hourly * 24 * 365) 2 }

/-- The `/api/cost` handler: `float(args.get('cpu', 0.25))` then
`float(args.get('memory', 0.5))`, with no `try` around either;
`.error ()` is the uncaught `ValueError` escaping the handler (no 200
cost JSON is produced). -/
def cost_calculator (cpuArg memoryArg : Option String) : Except Unit CostResponse :=
  match argFloat cpuArg (1/4) with
  | none => .error ()
  | some cpu =>
    match argFloat memoryArg (1/2) with
    | none => .error ()
    | some memory => .ok (mkCostResponse cpu memory)

/-! ## Concrete scenario inputs -/

/-- A fixed run instant (epoch seconds). -/
def now0 : ℤ := 1700000000

/-- Fake account: exactly one 50 GB EBS volume in state `available`
(no attachments), nothing else. -/
def env_vol : CloudEnv :=
  { volumes := [{ volumeId := "vol-abc", size := 50, state := "available" }] }

/-- Fake account: one security group with a single ingress rule opening
port 22 to `0.0.0.0/0`, nothing else. -/
def env_sg : CloudEnv :=
  { securityGroups :=
      [ { groupId := "sg-1", groupName := "web"
          ipPermissions :=
            [ { fromPort := some 22, toPort := some 22
                ipRanges := [{ cidrIp := some "0.0.0.0/0" }] } ] } ] }

/-- Fake account: `i-1` running since ten days before the run instant,
`i-2` stopped, nothing else. -/
def env_two : CloudEnv :=
  { instances :=
      [ { instanceId := "i-1", instanceType := "t2.micro", state := "running"
          launchTime := now0 - 10 * 86400 }
      , { instanceId := "i-2", instanceType := "t2.micro", state := "stopped"
          launchTime := now0 - 100 * 86400 } ] }

/-- Fake account: one bucket `b1`, publicly accessible
(`IsPublic == true`), no encryption, non-empty, versioning enabled,
nothing else. -/
def env_b1 : CloudEnv :=
  { buckets :=
      [ { name := "b1", creationDate := 0, hasContents := true
          policyStatus := some true, encrypted := false
          versioningStatus := some "Enabled" } ] }

/-- A completely empty fake account. -/
def emptyEnv : CloudEnv := {}

/-- Modelled from the spec: "`total_resources` = sum over services of
service-reported resource totals" — the resource-total fields each
service summary reports, summed over the services map (an errored
service and the pseudo-services `cost_analysis`/`compliance` report no
resources). -/
def specServiceTotal : SummaryVal → ℕ
  | .ec2V e => e.instances.total + e.volumes.total + e.snapshots.total + e.amis.total
      + e.elastic_ips.total + e.security_groups.total
  | .lamV s => s.total
  | .ecsV s => s.total
  | .batchV s => s.total_queues
  | .s3V s => s.total
  | .ebsV s => s.total
  | .efsV s => s.total
  | .rdsV s => s.total
  | .ddbV s => s.count
  | .cacheV s => s.total
  | .vpcV s => s.vpcs + s.subnets + s.route_tables
  | .cfV s => s.total
  | .r53V s => s.total.length
  | .apiV s => s.total
  | .iamV s => s.users.total + s.roles.total + s.policies.total + s.access_keys.total
  | .sgV s => s.total
  | .kmsV s => s.total
  | .cwV s => s.alarms
  | .cfnV s => s.total
  | .codeV s => s.codebuild_projects + s.codepipeline_pipelines + s.codedeploy_applications
  | .snsV s => s.total
  | .sqsV s => s.total
  | .evtV s => s.rules
  | .costV _ => 0
  | .compV _ => 0
  | .err _ => 0

/-- Modelled from the spec: the claimed value of `total_resources`. -/
def specTotalResources (services : List (String × SummaryVal)) : ℕ :=
  (services.map (fun s => specServiceTotal s.2)).sum

/-- The findings one structured run appends (EC2, S3, IAM blocks in
program order); it does not depend on the findings already held. -/
def structuredRunBlock (env : CloudEnv) (region : String) (now : ℤ) : List AuditFinding :=
  (audit_ec2_resources env region now).2 ++ (audit_s3_buckets env region).2
    ++ (audit_iam_resources env region now).2

/-- 721 sample points with distinct timestamps. -/
def ticks721 : List HistoryPoint :=
  (List.range 721).map (fun i => { time := Int.ofNat i, value := 0 })

/-- The process state after `n` tracked requests from one client. -/
def visitN : ℕ → AppVisitState
  | 0 => {}
  | n + 1 => (increment_visitor_counter (visitN n) "10.0.0.1" (some "agent")).1

/-- The overly-permissive finding-string test used to slice findings
lists by finding code. -/
def isOverlyPermissiveF (f : AuditFinding) : Bool :=
  f.finding = "Overly permissive security group"

/-! ## General lemmas -/

lemma foldl_add_savings (l : List AuditFinding) (a : ℚ) :
    l.foldl (fun a f => a + f.estimated_savings) a
      = a + (l.map (fun f => f.estimated_savings)).sum := by
  induction l generalizing a with
  | nil => simp
  | cons f t ih => simp [List.foldl_cons, ih, add_assoc]

lemma totalSavings_eq_sum (l : List AuditFinding) :
    totalSavings l = (l.map (fun f => f.estimated_savings)).sum := by
  simpa [totalSavings] using foldl_add_savings l 0

/-- C1: for every completed full audit, the report summary's
`estimated_monthly_savings` equals the sum of `estimated_savings` over
the report's findings list (both are accumulated from the very same
`self.findings` list, whatever findings the auditor already held). -/
theorem summary_savings_eq_findings_sum (env : CloudEnv) (acct region : String) (now : ℤ)
    (fs0 : List AuditFinding) :
    (run_complete_audit env acct region now fs0).summary.estimated_monthly_savings
      = ((run_complete_audit env acct region now fs0).findings.map
          (fun f => f.estimated_savings)).sum := by
  simp [run_complete_audit, generate_summary, totalSavings_eq_sum]

lemma filter_critical_high_length (l : List AuditFinding) :
    (l.filter (fun f => f.severity = Severity.CRITICAL ∨ f.severity = Severity.HIGH)).length
      = l.countP (fun f => f.severity = Severity.CRITICAL)
        + l.countP (fun f => f.severity = Severity.HIGH) := by
  induction l with
  | nil => rfl
  | cons f t ih =>
    rw [List.filter_cons, List.countP_cons, List.countP_cons]
    by_cases h1 : f.severity = Severity.CRITICAL
    · rw [if_pos (by simp [h1]), if_pos (by simp [h1]), if_neg (by simp [h1]),
        List.length_cons, ih]
      omega
    · by_cases h2 : f.severity = Severity.HIGH
      · rw [if_pos (by simp [h1, h2]), if_neg (by simp [h1, h2]), if_pos (by simp [h2]),
          List.length_cons, ih]
        omega
      · rw [if_neg (by simp [h1, h2]), if_neg (by simp [h1]), if_neg (by simp [h2]), ih]
        omega

/-- C7: for every completed full audit, `critical_findings` equals the
number of CRITICAL findings plus the number of HIGH findings; and for
the fake with one public, unencrypted bucket `b1`, the run yields
exactly the `PUBLIC_S3_BUCKET(b1, CRITICAL)` and
`UNENCRYPTED_S3_BUCKET(b1, HIGH)` findings, with `critical_findings`
equal to 2. -/
theorem critical_findings_count :
    (∀ (env : CloudEnv) (acct region : String) (now : ℤ) (fs0 : List AuditFinding),
      (run_complete_audit env acct region now fs0).summary.critical_findings
        = (run_complete_audit env acct region now fs0).findings.countP
            (fun f => f.severity = Severity.CRITICAL)
          + (run_complete_audit env acct region now fs0).findings.countP
              (fun f => f.severity = Severity.HIGH))
    ∧ ((run_complete_audit env_b1 "acct" "ap-south-1" now0 []).findings.map
         (fun f => (f.finding, f.resource_id, f.severity))
        = [("Public S3 bucket", "b1", Severity.CRITICAL),
           ("Unencrypted S3 bucket", "b1", Severity.HIGH)])
    ∧ (run_complete_audit env_b1 "acct" "ap-south-1" now0 []).summary.critical_findings = 2 := by
  refine ⟨fun env acct region now fs0 => ?_, by decide, by decide⟩
  exact filter_critical_high_length ((run_complete_audit env acct region now fs0).findings)

/-- C6: for the fake with running `i-1` (launched ten days before the
run instant) and stopped `i-2`, the full report's findings are the
idle-instance finding for `i-1` (MEDIUM, savings 150) and the
stopped-instance finding for `i-2` (LOW, savings 60), and the summary's
`estimated_monthly_savings` is 210. -/
theorem idle_and_stopped_instances_scenario :
    ((run_complete_audit env_two "acct" "ap-south-1" now0 []).findings.map
       (fun f => (f.finding, f.resource_id, f.severity, f.estimated_savings))
      = [("Potentially idle EC2 instance", "i-1", Severity.MEDIUM, 150),
         ("Stopped EC2 instance", "i-2", Severity.LOW, 60)])
    ∧ (run_complete_audit env_two "acct" "ap-south-1" now0
        []).summary.estimated_monthly_savings = 210 := by
  constructor <;>
    simp [run_complete_audit, audit_ec2_resources, instLoop, instanceFindings,
      idleInstanceFinding, stoppedInstanceFinding, env_two, now0, tdDays,
      volumeFindings, eipFindings, overlyPermissiveFindings, audit_lambda_functions,
      audit_s3_buckets, bucketFindings, audit_rds_instances, rdsFindings,
      audit_vpc_resources, audit_iam_resources, userFindings, audit_security_groups,
      generate_summary, totalSavings,
      show ¬ ("" : String) = "Client.UserInitiatedShutdown" from by decide] <;>
    norm_num

/-- C3: `_generate_summary` sets `total_resources_audited` to
`len(services)` — the number of service blocks, here 25 — while the
sum of service-reported resource totals over an empty account is 0; the
dead local `total_resources = 0` in `_generate_summary` and the summing
code of `get_structured_audit` (commented "FIXED!") show the sum was the
intent. -/
theorem total_resources_is_service_count :
    (run_complete_audit emptyEnv "acct" "ap-south-1" now0
        []).summary.total_resources_audited = 25
    ∧ specTotalResources (run_complete_audit emptyEnv "acct" "ap-south-1" now0 []).services = 0
    ∧ (run_complete_audit emptyEnv "acct" "ap-south-1" now0
         []).summary.total_resources_audited
        ≠ specTotalResources (run_complete_audit emptyEnv "acct" "ap-south-1" now0
            []).services := by
  refine ⟨by decide, by decide, by decide⟩

/-- C2 counterexample: in one full audit run over a fake with a single
security group `sg-1` opening port 22 to `0.0.0.0/0`, the report
contains TWO findings with the identical
(SECURITY_GROUP, "sg-1", overly-permissive) triple — nothing collapses
duplicates, and the matching group does not get exactly one finding. -/
theorem sg_duplicate_findings_counterexample :
    ((run_complete_audit env_sg "acct" "ap-south-1" now0 []).findings.countP
      (fun f => f.resource_type = ResourceType.SECURITY_GROUP ∧ f.resource_id = "sg-1"
        ∧ f.finding = "Overly permissive security group")) = 2 := by
  decide

/-- C4 counterexample: for the fake holding exactly one 50 GB EBS
volume in state `available` with no attachments, the quick audit prices
the single `unattached_ebs` item at `count * 5 = 5.00` — not at the
volume's finding savings of 150.00 — and `estimated_monthly_cost` is
5.00, not 150.00. -/
theorem quick_audit_flat_rate_counterexample :
    ((aws_audit_quick env_vol "ap-south-1" now0 []).1.critical_items.map
       (fun i => (i.type, i.count, i.cost_per_month)) = [("unattached_ebs", 1, 5)])
    ∧ (aws_audit_quick env_vol "ap-south-1" now0 []).1.estimated_monthly_cost = 5
    ∧ ¬ ((aws_audit_quick env_vol "ap-south-1" now0 []).1.estimated_monthly_cost = 150) := by
  refine ⟨?_, ?_, ?_⟩ <;>
    simp [aws_audit_quick, get_structured_audit, structEc2Details, audit_ec2_resources,
      instLoop, volumeFindings, unattachedVolumeFinding, eipFindings,
      overlyPermissiveFindings, audit_s3_buckets, audit_iam_resources, env_vol]

/-- C4 amended: for the fake holding exactly one 50 GB unattached EBS
volume, the quick audit returns `critical_items` equal to a single
`unattached_ebs` entry with count 1 and `cost_per_month` 5.00 (a flat
5 USD per unattached volume, independent of size), and
`estimated_monthly_cost` equal to 5.00. -/
theorem quick_audit_unattached_ebs_scenario :
    (aws_audit_quick env_vol "ap-south-1" now0 []).1
      = { critical_items :=
            [{ type := "unattached_ebs", count := 1, cost_per_month := 5
               action := "Delete unattached volumes" }]
          estimated_monthly_cost := 5 } := by
  simp [aws_audit_quick, get_structured_audit, structEc2Details, audit_ec2_resources,
    instLoop, volumeFindings, unattachedVolumeFinding, eipFindings,
    overlyPermissiveFindings, audit_s3_buckets, audit_iam_resources, env_vol]

/-- C5 counterexample: on one auditor instance over a fixed fake (one
unattached volume), the first `get_structured_audit` reports 1 finding
and the second reports 2 — the second report carries the first run's
finding, so successive invocations do not return identical reports. -/
theorem structured_audit_stale_counterexample :
    ((get_structured_audit env_vol "ap-south-1" now0 []).1.summary.total_findings = 1)
    ∧ ((get_structured_audit env_vol "ap-south-1" now0
          ((get_structured_audit env_vol "ap-south-1" now0 []).2)).1.summary.total_findings = 2)
    ∧ ¬ ((get_structured_audit env_vol "ap-south-1" now0
           ((get_structured_audit env_vol "ap-south-1" now0 []).2)).1.summary.total_findings
         = (get_structured_audit env_vol "ap-south-1" now0 []).1.summary.total_findings) := by
  refine ⟨by decide, by decide, by decide⟩

/-- C5 amended: `get_structured_audit` never clears `self.findings` —
each invocation appends one fresh block to the accumulated list and
reports ALL accumulated findings, so the report of a second invocation
contains every finding of the first and `total_findings` grows by the
block size instead of staying equal. -/
theorem structured_audit_accumulates (env : CloudEnv) (region : String) (now : ℤ)
    (fs0 : List AuditFinding) :
    (get_structured_audit env region now fs0).2 = fs0 ++ structuredRunBlock env region now
    ∧ (get_structured_audit env region now fs0).1.summary.total_findings
        = fs0.length + (structuredRunBlock env region now).length := by
  constructor
  · simp [get_structured_audit, structuredRunBlock]
  · simp [get_structured_audit, structuredRunBlock]

lemma foldl_dequeAppend {α : Type} (m : ℕ) (hm : 0 < m) :
    ∀ (xs : List α) (buf : List α), buf.length ≤ m →
      xs.foldl (dequeAppend m) buf = (buf ++ xs).drop (buf.length + xs.length - m)
  | [], buf, h => by
    simp [Nat.sub_eq_zero_of_le h]
  | x :: xs, buf, h => by
    rw [List.foldl_cons]
    by_cases hlt : buf.length < m
    · have hstep : dequeAppend m buf x = buf ++ [x] := by rw [dequeAppend, if_pos hlt]
      rw [hstep, foldl_dequeAppend m hm xs (buf ++ [x]) (by simp; omega)]
      have hassoc : (buf ++ [x]) ++ xs = buf ++ x :: xs := by simp
      rw [hassoc]
      congr 1
      simp
      omega
    · have hlen : buf.length = m := le_antisymm h (not_lt.mp hlt)
      have hstep : dequeAppend m buf x = buf.drop 1 ++ [x] := by rw [dequeAppend, if_neg hlt]
      have hlen2 : (buf.drop 1 ++ [x]).length ≤ m := by simp [List.length_drop]; omega
      rw [hstep, foldl_dequeAppend m hm xs (buf.drop 1 ++ [x]) hlen2]
      have h1 : 1 ≤ buf.length := by omega
      have hassoc : (buf.drop 1 ++ [x]) ++ xs = (buf ++ x :: xs).drop 1 := by
        rw [List.drop_append_of_le_length h1]
        simp
      rw [hassoc, List.drop_drop]
      congr 1
      simp [List.length_drop]
      omega

/-- C8: each metrics ring buffer (the CPU, memory and disk history
deques are created alike with `maxlen = 720`) is a fixed-capacity FIFO:
after appending any series of more than 720 points to the initially
empty buffer, the buffer holds exactly 720 points, namely the last 720
appended (the oldest were evicted), with the most recent append at the
tail. -/
theorem ring_buffer_fifo (xs : List HistoryPoint) (h : 720 < xs.length) :
    (xs.foldl historyAppend []).length = 720
    ∧ xs.foldl historyAppend [] = xs.drop (xs.length - 720)
    ∧ (xs.foldl historyAppend []).getLast? = xs.getLast? := by
  have h0 : xs.foldl historyAppend [] = xs.drop (xs.length - 720) := by
    have h1 := foldl_dequeAppend 720 (by norm_num) xs [] (by simp)
    simpa [historyAppend, maxHistory] using h1
  refine ⟨?_, h0, ?_⟩
  · rw [h0, List.length_drop]
    omega
  · rw [h0]
    have hne : xs.drop (xs.length - 720) ≠ [] := by
      intro hnil
      have := congrArg List.length hnil
      simp [List.length_drop] at this
      omega
    conv_rhs => rw [← List.take_append_drop (xs.length - 720) xs]
    rw [List.getLast?_append]
    cases hx : (xs.drop (xs.length - 720)).getLast? with
    | none => exact absurd (List.getLast?_eq_none_iff.mp hx) hne
    | some y => simp

theorem ring_buffer_fifo_witness :
    720 < ticks721.length
    ∧ ((ticks721.foldl historyAppend []).length = 720
       ∧ ticks721.foldl historyAppend [] = ticks721.drop (ticks721.length - 720)
       ∧ (ticks721.foldl historyAppend []).getLast? = ticks721.getLast?) :=
  ⟨by rw [ticks721, List.length_map, List.length_range]; norm_num,
   ring_buffer_fifo ticks721 (by rw [ticks721, List.length_map, List.length_range]; norm_num)⟩

set_option maxRecDepth 4000 in
/-- C9 counterexample: after 11 recorded visits, `/api/visitors` returns
under `flask_recent` the FIRST ten in-process records (visit numbers
1..10) — the oldest of the retained window — and the most recent visit
(number 11) is absent, so `flask_recent` is not the 10 most recent
entries of the in-process list. -/
theorem visitors_oldest_ten_counterexample :
    ((visitN 11).monitor.visitor_details.map (fun v => v.visitor_number)
      = [1, 2, 3, 4, 5, 6, 7, 8, 9, 10, 11])
    ∧ ((visitors_endpoint (visitN 11)).flask_recent.map (fun v => v.visitor_number)
      = [1, 2, 3, 4, 5, 6, 7, 8, 9, 10])
    ∧ ¬ (11 ∈ (visitors_endpoint (visitN 11)).flask_recent.map (fun v => v.visitor_number))
    ∧ ¬ ((visitors_endpoint (visitN 11)).flask_recent
          = (visitN 11).monitor.visitor_details.drop
              ((visitN 11).monitor.visitor_details.length - 10)) := by
  refine ⟨by decide, by decide, by decide, by decide⟩

lemma append_trim_getLast? {α : Type} (l : List α) (x : α) :
    (if (l ++ [x]).length > 50 then (l ++ [x]).drop 1 else l ++ [x]).getLast? = some x := by
  split
  case isTrue h =>
    have hl : 1 ≤ l.length := by
      simp only [List.length_append, List.length_cons, List.length_nil] at h
      omega
    rw [List.drop_append_of_le_length hl, List.getLast?_concat]
  case isFalse h => rw [List.getLast?_concat]

/-- C9 amended: `/api/visitors` returns the first ten entries of each
backing list.  On the cache side every visit is `lpush`-prepended, so
the head — and hence the first ten — really are the most recent; on the
in-process side every visit is appended at the TAIL (and trimmed from
the head), so `visitor_details[:10]` is the oldest ten of the retained
window, not the most recent ten. -/
theorem visitors_endpoint_slices (st : AppVisitState) (ip : String) (ua : Option String) :
    (visitors_endpoint st).flask_recent = st.monitor.visitor_details.take 10
    ∧ (visitors_endpoint st).recent = st.store.recent_visits.take 10
    ∧ ((increment_visitor_counter st ip ua).1).store.recent_visits.head?
        = some { user_agent := (ua.getD "Unknown").take 100, ip := ip }
    ∧ ((increment_visitor_counter st ip ua).1).monitor.visitor_details.getLast?
        = some { ip := pyOr (some ip) "unknown"
                 user_agent := (pyOr ua "unknown").take 100
                 visitor_number := st.monitor.visitors + 1 } := by
  refine ⟨rfl, ?_, ?_, ?_⟩
  · simp [visitors_endpoint, lrange]
  · simp [increment_visitor_counter, lrange, List.take_cons]
  · simp only [increment_visitor_counter, increment_visitor]
    exact append_trim_getLast? _ _

/-- C10: the `/api/cost` handler is not total — whenever the `cpu` or
`memory` query parameter is present but not parseable as a decimal
float, the `float(...)` conversion raises and no 200 cost JSON is
produced; when both parameters (or their defaults 0.25 and 0.5) parse,
the handler returns the cost response computed from
`hourly = cpu * FARGATE_CPU_PRICE + memory * FARGATE_MEMORY_PRICE`. -/
theorem cost_calculator_totality :
    (∀ (s : String) (ma : Option String), pyFloat s = none →
        cost_calculator (some s) ma = .error ())
    ∧ (∀ (ca : Option String) (s : String), pyFloat s = none →
        cost_calculator ca (some s) = .error ())
    ∧ (∀ (ca ma : Option String) (c m : ℚ),
        argFloat ca (1/4) = some c → argFloat ma (1/2) = some m →
        cost_calculator ca ma = .ok (mkCostResponse c m)) := by
  refine ⟨?_, ?_, ?_⟩
  · intro s ma h
    simp only [cost_calculator, argFloat, h]
  · intro ca s h
    cases hca : argFloat ca (1/4) with
    | none => simp only [cost_calculator, hca]
    | some c =>
      simp only [cost_calculator, hca]
      simp only [argFloat, h]
  · intro ca ma c m hc hm
    simp only [cost_calculator, hc, hm]

theorem cost_calculator_totality_witness :
    pyFloat "abc" = none
    ∧ cost_calculator (some "abc") none = .error ()
    ∧ cost_calculator none (some "abc") = .error ()
    ∧ argFloat none (1/4 : ℚ) = some (1/4)
    ∧ argFloat none (1/2 : ℚ) = some (1/2)
    ∧ cost_calculator none none = .ok (mkCostResponse (1/4) (1/2)) :=
  ⟨by decide,
   cost_calculator_totality.1 "abc" none (by decide),
   cost_calculator_totality.2.1 none "abc" (by decide),
   rfl, rfl,
   cost_calculator_totality.2.2 none none (1/4) (1/2) rfl rfl⟩


lemma overlyPermissiveFindings_finding (region : String) (sgs : List SecurityGroup) :
    ∀ f ∈ overlyPermissiveFindings region sgs,
      f.finding = "Overly permissive security group" := by
  intro f hf
  simp only [overlyPermissiveFindings, List.mem_flatMap] at hf
  obtain ⟨sg, -, p, -, r, -, hf⟩ := hf
  split at hf
  · simp only [List.mem_singleton] at hf
    subst hf
    rfl
  · simp at hf

lemma filter_overly_self (region : String) (sgs : List SecurityGroup) :
    (overlyPermissiveFindings region sgs).filter isOverlyPermissiveF
      = overlyPermissiveFindings region sgs := by
  refine List.filter_eq_self.mpr ?_
  intro f hf
  simp [isOverlyPermissiveF, overlyPermissiveFindings_finding region sgs f hf]

lemma instanceFindings_filter_overly (region : String) (now : ℤ) (i : Ec2Instance) :
    (instanceFindings region now i).filter isOverlyPermissiveF = [] := by
  unfold instanceFindings
  split
  · dsimp only
    split
    · simp [List.filter_cons, isOverlyPermissiveF, idleInstanceFinding]
    · rfl
  · split
    · simp [List.filter_cons, isOverlyPermissiveF, stoppedInstanceFinding]
    · rfl

lemma instLoop_filter_overly (region : String) (now : ℤ) :
    ∀ (l : List Ec2Instance) (s : InstLoopState),
      ((instLoop region now l s).1).filter isOverlyPermissiveF = [] := by
  intro l
  induction l with
  | nil => intro s; rfl
  | cons i rest ih =>
    intro s
    simp only [instLoop]
    split
    · exact instanceFindings_filter_overly region now i
    · rw [List.filter_append, instanceFindings_filter_overly region now i, ih]
      rfl

lemma volumeFindings_filter_overly (region : String) (vols : List Volume) :
    (volumeFindings region vols).filter isOverlyPermissiveF = [] := by
  refine List.filter_eq_nil_iff.mpr ?_
  intro f hf
  simp only [volumeFindings, List.mem_flatMap] at hf
  obtain ⟨v, -, hf⟩ := hf
  split at hf
  · simp only [List.mem_singleton] at hf
    subst hf
    simp [isOverlyPermissiveF, unattachedVolumeFinding]
  · simp at hf

lemma eipFindings_filter_overly (region : String) (addrs : List Address) :
    (eipFindings region addrs).filter isOverlyPermissiveF = [] := by
  refine List.filter_eq_nil_iff.mpr ?_
  intro f hf
  simp only [eipFindings, List.mem_flatMap] at hf
  obtain ⟨a, -, hf⟩ := hf
  split at hf
  · simp only [List.mem_singleton] at hf
    subst hf
    simp [isOverlyPermissiveF, eipFinding]
  · simp at hf


lemma lambda_findings_filter_overly (env : CloudEnv) (region : String) (now : ℤ) :
    ((audit_lambda_functions env region now).2).filter isOverlyPermissiveF = [] := by
  refine List.filter_eq_nil_iff.mpr ?_
  intro f hf
  simp only [audit_lambda_functions, List.mem_map] at hf
  obtain ⟨g, -, rfl⟩ := hf
  simp [isOverlyPermissiveF, unusedLambdaFinding]

lemma bucketFindings_finding (region : String) (b : Bucket) (f : AuditFinding)
    (hf : f ∈ bucketFindings region b) :
    f.finding = "Empty S3 bucket" ∨ f.finding = "Public S3 bucket"
      ∨ f.finding = "Unencrypted S3 bucket" := by
  unfold bucketFindings at hf
  rcases List.mem_append.mp hf with h | h
  · rcases List.mem_append.mp h with h2 | h2
    · split at h2
      · simp only [List.mem_singleton] at h2
        subst h2
        left
        rfl
      · simp at h2
    · split at h2
      · simp only [List.mem_singleton] at h2
        subst h2
        right
        left
        rfl
      · simp at h2
  · split at h
    · simp only [List.mem_singleton] at h
      subst h
      right
      right
      rfl
    · simp at h

lemma s3_findings_filter_overly (env : CloudEnv) (region : String) :
    ((audit_s3_buckets env region).2).filter isOverlyPermissiveF = [] := by
  refine List.filter_eq_nil_iff.mpr ?_
  intro f hf
  simp only [audit_s3_buckets, List.mem_flatMap] at hf
  obtain ⟨b, -, hf⟩ := hf
  rcases bucketFindings_finding region b f hf with h | h | h <;>
    simp [isOverlyPermissiveF, h]

lemma rdsFindings_finding (region : String) (db : RdsInstance) (f : AuditFinding)
    (hf : f ∈ rdsFindings region db) :
    f.finding = "Publicly accessible RDS instance" ∨ f.finding = "Stopped RDS instance" := by
  unfold rdsFindings at hf
  rcases List.mem_append.mp hf with h | h
  · split at h
    · simp only [List.mem_singleton] at h
      subst h
      left
      rfl
    · simp at h
  · split at h
    · simp only [List.mem_singleton] at h
      subst h
      right
      rfl
    · simp at h

lemma rds_findings_filter_overly (env : CloudEnv) (region : String) :
    ((audit_rds_instances env region).2).filter isOverlyPermissiveF = [] := by
  refine List.filter_eq_nil_iff.mpr ?_
  intro f hf
  simp only [audit_rds_instances, List.mem_flatMap] at hf
  obtain ⟨db, -, hf⟩ := hf
  rcases rdsFindings_finding region db f hf with h | h <;>
    simp [isOverlyPermissiveF, h]

lemma vpc_findings_filter_overly (env : CloudEnv) (region : String) :
    ((audit_vpc_resources env region).2).filter isOverlyPermissiveF = [] := by
  refine List.filter_eq_nil_iff.mpr ?_
  intro f hf
  simp only [audit_vpc_resources, List.mem_map] at hf
  obtain ⟨v, -, rfl⟩ := hf
  simp [isOverlyPermissiveF, defaultVpcFinding]

lemma userFindings_finding (region : String) (now : ℤ) (u : IamUser) (f : AuditFinding)
    (hf : f ∈ userFindings region now u) :
    f.finding = "IAM user without MFA" ∨ f.finding = "Old IAM access key" := by
  unfold userFindings at hf
  rcases List.mem_append.mp hf with h | h
  · split at h
    · simp at h
    · simp only [List.mem_singleton] at h
      subst h
      left
      rfl
  · simp only [List.mem_flatMap] at h
    obtain ⟨k, -, h⟩ := h
    split at h
    · simp only [List.mem_singleton] at h
      subst h
      right
      rfl
    · simp at h

lemma iam_findings_filter_overly (env : CloudEnv) (region : String) (now : ℤ) :
    ((audit_iam_resources env region now).2).filter isOverlyPermissiveF = [] := by
  refine List.filter_eq_nil_iff.mpr ?_
  intro f hf
  simp only [audit_iam_resources, List.mem_flatMap] at hf
  obtain ⟨u, -, hf⟩ := hf
  rcases userFindings_finding region now u f hf with h | h <;>
    simp [isOverlyPermissiveF, h]

lemma sg_audit_findings_eq (env : CloudEnv) (region : String) :
    (audit_security_groups env region).2
      = overlyPermissiveFindings region env.securityGroups := rfl


lemma ec2_findings_of_ok (env : CloudEnv) (region : String) (now : ℤ)
    (h : ∃ s, (audit_ec2_resources env region now).1 = Except.ok s) :
    (audit_ec2_resources env region now).2
      = (instLoop region now env.instances {}).1 ++ volumeFindings region env.volumes
        ++ eipFindings region env.addresses
        ++ overlyPermissiveFindings region env.securityGroups := by
  obtain ⟨s, hs⟩ := h
  cases hr : (instLoop region now env.instances {}).2 with
  | error e =>
    simp only [audit_ec2_resources, hr] at hs
    exact absurd hs (by simp)
  | ok st =>
    simp only [audit_ec2_resources, hr]

theorem overly_permissive_emitted_twice (env : CloudEnv) (acct region : String) (now : ℤ)
    (fs0 : List AuditFinding)
    (h : ∃ s, (audit_ec2_resources env region now).1 = Except.ok s) :
    (run_complete_audit env acct region now fs0).findings.filter isOverlyPermissiveF
      = fs0.filter isOverlyPermissiveF
        ++ overlyPermissiveFindings region env.securityGroups
        ++ overlyPermissiveFindings region env.securityGroups := by
  have hfind : (run_complete_audit env acct region now fs0).findings
      = fs0 ++ (audit_ec2_resources env region now).2
        ++ (audit_lambda_functions env region now).2
        ++ (audit_s3_buckets env region).2 ++ (audit_rds_instances env region).2
        ++ (audit_vpc_resources env region).2 ++ (audit_iam_resources env region now).2
        ++ (audit_security_groups env region).2 := rfl
  rw [hfind, ec2_findings_of_ok env region now h]
  simp only [List.filter_append]
  rw [instLoop_filter_overly, volumeFindings_filter_overly, eipFindings_filter_overly,
    filter_overly_self, lambda_findings_filter_overly, s3_findings_filter_overly,
    rds_findings_filter_overly, vpc_findings_filter_overly, iam_findings_filter_overly,
    sg_audit_findings_eq, filter_overly_self]
  simp


theorem overly_permissive_emitted_twice_witness :
    (∃ s, (audit_ec2_resources env_sg "ap-south-1" now0).1 = Except.ok s)
    ∧ (run_complete_audit env_sg "acct" "ap-south-1" now0 []).findings.filter
          isOverlyPermissiveF
        = ([] : List AuditFinding).filter isOverlyPermissiveF
          ++ overlyPermissiveFindings "ap-south-1" env_sg.securityGroups
          ++ overlyPermissiveFindings "ap-south-1" env_sg.securityGroups :=
  ⟨⟨_, rfl⟩, overly_permissive_emitted_twice env_sg "acct" "ap-south-1" now0 [] ⟨_, rfl⟩⟩

end SysPulse
